import Mathlib

/-!
Verification of the recording-indicator widget
(`src/components/RecordingIndicator.tsx`) of the air-keys repository.

The widget keeps four mutable cells — `targetLevel`, `displayLevel`,
`phase`, `state` — mutated by three kinds of events: amplitude events,
state events, and the per-frame animation tick.  We embed the component
as a pure state machine over exact rationals (the event handlers and the
smoothing step use only `+`, `-`, `*`, `max`, `min`), and embed the bar
renderer over the reals (it uses `Math.sin` and `Math.PI`).
-/

namespace RecordingIndicator

/-- A JavaScript number as received in an event payload: finite values
are modelled exactly as rationals; `nan`, `posInf`, `negInf` are the
values `Number.isFinite` rejects. -/
inductive JSNum where
  | nan
  | posInf
  | negInf
  | fin (q : ℚ)
deriving DecidableEq, Repr

/-- Model of `Number.isFinite`. -/
def JSNum.isFinite : JSNum → Bool
  | .fin _ => true
  | _ => false

/-- Function `clampLevel` (RecordingIndicator.tsx, lines 14–19): a non-finite
input yields 0, otherwise `Math.max(0, Math.min(1, level))`. -/
def clampLevel (level : JSNum) : ℚ :=
  match level with
  | .fin q => max 0 (min 1 q)
  | _ => 0

/-- The three values of the component's `state` cell (line 31). -/
inductive RecState where
  | listening
  | processing
  | cancelling
deriving DecidableEq, Repr

/-- The `recording-amplitude` handler (lines 38–46): while the state is
`processing` or `cancelling` the sample is dropped, otherwise the target
level becomes the clamped payload level. -/
def onAmplitudeEvent (state : RecState) (targetLevel : ℚ) (level : JSNum) : ℚ :=
  if state = .processing ∨ state = .cancelling then targetLevel
  else clampLevel level

/-- The `recording-state` handler (lines 48–63): `"processing"` and
`"cancelling"` set the state accordingly and force the target level to
0; every other payload value falls through to `setState('listening')`
and leaves the target level alone.  The handler never reads the current
state. -/
def onStateEvent (targetLevel : ℚ) (value : String) : RecState × ℚ :=
  if value = "processing" then (.processing, 0)
  else if value = "cancelling" then (.cancelling, 0)
  else (.listening, targetLevel)

/-- The widget's mutable cells (lines 28–31). -/
structure WidgetState where
  targetLevel : ℚ
  displayLevel : ℚ
  phase : ℚ
  state : RecState
deriving DecidableEq, Repr

/-- All four cells start at `useState(0)` resp. `useState('listening')`
(lines 28–31). -/
def initialState : WidgetState :=
  { targetLevel := 0, displayLevel := 0, phase := 0, state := .listening }

/-- The three kinds of events that mutate the widget state. -/
inductive WEvent where
  | amplitude (level : JSNum)
  | stateChange (value : String)
  | tick
deriving DecidableEq, Repr

/-- One smoothing step of the animation loop (line 86):
`prev + (targetLevel - prev) * 0.3`. -/
def stepDisplay (prev target : ℚ) : ℚ :=
  prev + (target - prev) * (3 / 10)

/-- The widget's reaction to one event: amplitude and state events run
the two listeners; a tick runs the `step` callback of the animation
effect (lines 85–89), advancing the display level and adding 0.14 to the
phase. -/
def applyEvent (w : WidgetState) : WEvent → WidgetState
  | .amplitude level =>
      { w with targetLevel := onAmplitudeEvent w.state w.targetLevel level }
  | .stateChange value =>
      { w with state := (onStateEvent w.targetLevel value).1,
               targetLevel := (onStateEvent w.targetLevel value).2 }
  | .tick =>
      { w with displayLevel := stepDisplay w.displayLevel w.targetLevel,
               phase := w.phase + 14 / 100 }

/-- The successive target levels produced by a sequence of amplitude
samples. -/
def runTargets (w : WidgetState) : List JSNum → List ℚ
  | [] => []
  | level :: rest =>
      (applyEvent w (.amplitude level)).targetLevel ::
        runTargets (applyEvent w (.amplitude level)) rest

/-- C1: from any widget state, receiving `{state:"processing"}` yields
state `processing` and forces the target level to 0; receiving
`{state:"cancelling"}` yields state `cancelling` and forces the target
level to 0; receiving `{state:"listening"}` yields state `listening`
and leaves the target level unchanged. -/
theorem state_event_table (w : WidgetState) :
    applyEvent w (.stateChange "processing")
      = { w with state := .processing, targetLevel := 0 }
    ∧ applyEvent w (.stateChange "cancelling")
      = { w with state := .cancelling, targetLevel := 0 }
    ∧ applyEvent w (.stateChange "listening")
      = { w with state := .listening, targetLevel := w.targetLevel } := by
  refine ⟨?_, ?_, ?_⟩ <;> simp [applyEvent, onStateEvent]

/-- C2: an amplitude event `{level: x}` sets the target level to
`clampLevel x` when the state is `listening` and leaves it unchanged
when the state is `processing` or `cancelling`; after a `"listening"`
state event, the sample sequence `[0, 0.5, 1, -1, NaN]` produces the
target-level sequence `[0, 0.5, 1, 0, 0]`. -/
theorem amplitude_event_behavior (t d p : ℚ) (l : JSNum) :
    applyEvent ⟨t, d, p, .listening⟩ (.amplitude l) = ⟨clampLevel l, d, p, .listening⟩
    ∧ applyEvent ⟨t, d, p, .processing⟩ (.amplitude l) = ⟨t, d, p, .processing⟩
    ∧ applyEvent ⟨t, d, p, .cancelling⟩ (.amplitude l) = ⟨t, d, p, .cancelling⟩
    ∧ runTargets (applyEvent initialState (.stateChange "listening"))
        [.fin 0, .fin (1/2), .fin 1, .fin (-1), .nan] = [0, 1/2, 1, 0, 0] := by
  refine ⟨?_, ?_, ?_, ?_⟩
  · simp [applyEvent, onAmplitudeEvent]
  · simp [applyEvent, onAmplitudeEvent]
  · simp [applyEvent, onAmplitudeEvent]
  · have h0 : applyEvent initialState (.stateChange "listening") = initialState := by
      decide
    rw [h0]
    norm_num [runTargets, applyEvent, onAmplitudeEvent, clampLevel,
      initialState, min_def, max_def]
    simp

/-- C3, counterexample: a state event with the unknown payload value
`"bogus"` received in state `processing` is not a no-op — it changes the
state (to `listening`). -/
theorem unknown_state_event_not_noop :
    applyEvent ⟨0, 0, 0, .processing⟩ (.stateChange "bogus")
      ≠ ⟨0, 0, 0, .processing⟩ := by
  decide

/-- C3, amended: a state event whose payload value is neither
`"processing"` nor `"cancelling"` — in particular any unknown value —
sets the state to `listening` and leaves the target level unchanged, so
it is a no-op exactly when the state already is `listening`. -/
theorem unknown_state_event_to_listening (w : WidgetState) (value : String)
    (h1 : value ≠ "processing") (h2 : value ≠ "cancelling") :
    applyEvent w (.stateChange value) = { w with state := .listening } := by
  simp [applyEvent, onStateEvent, h1, h2]

/-- C3, witness for the amended claim: the unknown value `"bogus"`
received in state `processing` with target level 1/2 yields state
`listening` with target level still 1/2. -/
theorem unknown_state_event_to_listening_witness :
    applyEvent ⟨1/2, 0, 0, .processing⟩ (.stateChange "bogus")
      = ⟨1/2, 0, 0, .listening⟩ :=
  unknown_state_event_to_listening ⟨1/2, 0, 0, .processing⟩ "bogus"
    (by decide) (by decide)

/-- Runs `n` consecutive animation frames with no intervening event. -/
def tickN (w : WidgetState) : ℕ → WidgetState
  | 0 => w
  | n + 1 => applyEvent (tickN w n) .tick

lemma tickN_targetLevel (w : WidgetState) (n : ℕ) :
    (tickN w n).targetLevel = w.targetLevel := by
  induction n with
  | zero => rfl
  | succ n ih => simp [tickN, applyEvent, ih]

lemma tickN_displayLevel_sub (w : WidgetState) (n : ℕ) :
    (tickN w n).displayLevel - w.targetLevel
      = (w.displayLevel - w.targetLevel) * (7 / 10) ^ n := by
  induction n with
  | zero => simp [tickN]
  | succ n ih =>
      have h : (tickN w (n + 1)).displayLevel
          = (tickN w n).displayLevel
            + ((tickN w n).targetLevel - (tickN w n).displayLevel) * (3 / 10) := rfl
      rw [h, tickN_targetLevel, pow_succ]
      linear_combination (7 / 10 : ℚ) * ih

/-- C4: one frame tick updates the displayed level by
`next = prev + (target - prev) * 0.3`, and `n` consecutive frames with a
constant target `T := w.targetLevel` from displayed level
`D0 := w.displayLevel` yield `|D_n - T| = |D0 - T| * 0.7 ^ n`. -/
theorem smoothing_convergence (w : WidgetState) (n : ℕ) :
    (applyEvent w .tick).displayLevel
      = w.displayLevel + (w.targetLevel - w.displayLevel) * (3 / 10)
    ∧ |(tickN w n).displayLevel - w.targetLevel|
      = |w.displayLevel - w.targetLevel| * (7 / 10) ^ n := by
  refine ⟨rfl, ?_⟩
  rw [tickN_displayLevel_sub, abs_mul, abs_pow,
    abs_of_nonneg (by norm_num : (0 : ℚ) ≤ 7 / 10)]

lemma clampLevel_nonneg (x : JSNum) : 0 ≤ clampLevel x := by
  cases x <;> simp [clampLevel]

lemma clampLevel_le_one (x : JSNum) : clampLevel x ≤ 1 := by
  cases x with
  | fin q => exact max_le (by norm_num) (min_le_left 1 q)
  | nan => norm_num [clampLevel]
  | posInf => norm_num [clampLevel]
  | negInf => norm_num [clampLevel]

/-- C5: the sanitizer is total: `clampLevel x = 0` when `x` is not a
finite number, `clampLevel x = max 0 (min 1 x)` when `x` is finite, and
its value always lies in `[0, 1]`.  (It is a plain function of its
argument, hence side-effect free.) -/
theorem clampLevel_spec (x : JSNum) :
    (x.isFinite = false → clampLevel x = 0)
    ∧ (∀ q : ℚ, x = .fin q → clampLevel x = max 0 (min 1 q))
    ∧ 0 ≤ clampLevel x ∧ clampLevel x ≤ 1 := by
  refine ⟨?_, ?_, clampLevel_nonneg x, clampLevel_le_one x⟩
  · cases x <;> simp [JSNum.isFinite, clampLevel]
  · rintro q rfl
    rfl

/-- C5, witness: evaluation at the non-finite input `NaN` and at the
finite input `2`. -/
theorem clampLevel_spec_witness :
    clampLevel .nan = 0 ∧ clampLevel (.fin 2) = max 0 (min 1 2) :=
  ⟨(clampLevel_spec .nan).1 rfl, (clampLevel_spec (.fin 2)).2.1 2 rfl⟩

/-- Both level cells lie in the unit interval. -/
def LevelsInRange (w : WidgetState) : Prop :=
  0 ≤ w.targetLevel ∧ w.targetLevel ≤ 1
    ∧ 0 ≤ w.displayLevel ∧ w.displayLevel ≤ 1

lemma levelsInRange_applyEvent {w : WidgetState} (h : LevelsInRange w)
    (e : WEvent) : LevelsInRange (applyEvent w e) := by
  obtain ⟨h1, h2, h3, h4⟩ := h
  cases e with
  | amplitude level =>
      simp only [applyEvent, onAmplitudeEvent, LevelsInRange]
      split
      · exact ⟨h1, h2, h3, h4⟩
      · exact ⟨clampLevel_nonneg level, clampLevel_le_one level, h3, h4⟩
  | stateChange value =>
      simp only [applyEvent, onStateEvent, LevelsInRange]
      split
      · exact ⟨le_refl 0, zero_le_one, h3, h4⟩
      · split
        · exact ⟨le_refl 0, zero_le_one, h3, h4⟩
        · exact ⟨h1, h2, h3, h4⟩
  | tick =>
      simp only [applyEvent, stepDisplay, LevelsInRange]
      exact ⟨h1, h2, by linarith, by linarith⟩

lemma levelsInRange_foldl (es : List WEvent) :
    ∀ w : WidgetState, LevelsInRange w → LevelsInRange (es.foldl applyEvent w) := by
  induction es with
  | nil => exact fun w h => h
  | cons e es ih =>
      intro w h
      exact ih (applyEvent w e) (levelsInRange_applyEvent h e)

/-- C6: `targetLevel` and `displayLevel` lie in `[0, 1]` initially, the
property is preserved by every event (amplitude, state change, frame
tick — the tick applies no explicit clamp), and hence it holds after any
event sequence from the initial state. -/
theorem levels_in_unit_interval :
    LevelsInRange initialState
    ∧ (∀ (w : WidgetState) (e : WEvent),
        LevelsInRange w → LevelsInRange (applyEvent w e))
    ∧ ∀ es : List WEvent, LevelsInRange (es.foldl applyEvent initialState) := by
  refine ⟨⟨le_refl 0, zero_le_one, le_refl 0, zero_le_one⟩, ?_, ?_⟩
  · exact fun w e h => levelsInRange_applyEvent h e
  · exact fun es => levelsInRange_foldl es initialState
      ⟨le_refl 0, zero_le_one, le_refl 0, zero_le_one⟩

/-- C6, witness: the preservation part applied to the initial state and
one frame tick. -/
theorem levels_in_unit_interval_witness :
    LevelsInRange (applyEvent initialState .tick) :=
  levels_in_unit_interval.2.1 initialState .tick
    ⟨le_refl 0, zero_le_one, le_refl 0, zero_le_one⟩

/-- Constant `BAR_COUNT` (line 12). -/
def BAR_COUNT : ℕ := 9

/-- The processing/cancelling branch of the `bars` memo (lines 96–100):
`0.2 + (Math.sin(phase + offset) + 1) * 0.12` with
`offset = (index / BAR_COUNT) * Math.PI * 1.5`. -/
noncomputable def barsProcessing (phase : ℝ) : List ℝ :=
  (List.range BAR_COUNT).map fun index : ℕ =>
    0.2 + (Real.sin (phase + (index : ℝ) / (BAR_COUNT : ℝ) * Real.pi * 1.5) + 1) * 0.12

/-- The listening branch of the `bars` memo (lines 102–107):
`Math.max(0.08, Math.min(1, displayLevel + Math.sin(phase + offset) * 0.16))`. -/
noncomputable def barsListening (displayLevel phase : ℝ) : List ℝ :=
  (List.range BAR_COUNT).map fun index : ℕ =>
    max 0.08 (min 1 (displayLevel + Real.sin (phase + (index : ℝ) / (BAR_COUNT : ℝ) * Real.pi * 1.5) * 0.16))

/-- The `bars` memo (lines 94–108): the processing branch when the state
is `processing` or `cancelling`, the listening branch otherwise. -/
noncomputable def bars (state : RecState) (displayLevel phase : ℝ) : List ℝ :=
  if state = .processing ∨ state = .cancelling then barsProcessing phase
  else barsListening displayLevel phase

lemma clamp_bar_bounds (x : ℝ) :
    0.08 ≤ max 0.08 (min 1 x) ∧ max 0.08 (min 1 x) ≤ 1 :=
  ⟨le_max_left _ _, max_le (by norm_num) (min_le_left 1 x)⟩

/-- C7: in state `listening` the renderer produces exactly 9 bar values;
bar `i` equals `clamp(displayedLevel + sin(phase + (i/9)·1.5π) · 0.16,
0.08, 1.0)`, and every bar value lies between 0.08 and 1. -/
theorem listening_bars_formula (d p : ℝ) :
    (bars .listening d p).length = 9
    ∧ bars .listening d p
      = (List.range 9).map (fun i : ℕ =>
          max 0.08 (min 1 (d + Real.sin (p + (i : ℝ) / 9 * (1.5 * Real.pi)) * 0.16)))
    ∧ ∀ i : Fin 9,
        0.08 ≤ (bars .listening d p).getD (i : ℕ) 0
        ∧ (bars .listening d p).getD (i : ℕ) 0 ≤ 1 := by
  have hb : bars .listening d p
      = (List.range 9).map (fun i : ℕ =>
          max 0.08 (min 1 (d + Real.sin (p + (i : ℝ) / 9 * (1.5 * Real.pi)) * 0.16))) := by
    rw [show bars .listening d p = barsListening d p from by simp [bars]]
    simp only [barsListening, BAR_COUNT, Nat.cast_ofNat]
    refine List.map_congr_left fun i _ => ?_
    have harg : p + (i : ℝ) / 9 * Real.pi * 1.5
        = p + (i : ℝ) / 9 * (1.5 * Real.pi) := by ring
    rw [harg]
  refine ⟨by rw [hb]; simp, hb, fun i => ?_⟩
  rw [hb, List.getD_eq_getElem?_getD, List.getElem?_map,
    List.getElem?_range i.isLt]
  exact clamp_bar_bounds _

/-- C8: in states `processing` and `cancelling` the bar output does not
depend on the displayed level — two runs with identical phase but
different prior displayed levels produce identical outputs — and each of
the 9 bars equals `0.2 + (sin(phase + (i/9)·1.5π) + 1) · 0.12`. -/
theorem processing_bars_independent (d1 d2 p : ℝ) :
    bars .processing d1 p = bars .processing d2 p
    ∧ bars .cancelling d1 p = bars .cancelling d2 p
    ∧ bars .processing d1 p
      = (List.range 9).map (fun i : ℕ =>
          0.2 + (Real.sin (p + (i : ℝ) / 9 * (1.5 * Real.pi)) + 1) * 0.12)
    ∧ bars .cancelling d1 p
      = (List.range 9).map (fun i : ℕ =>
          0.2 + (Real.sin (p + (i : ℝ) / 9 * (1.5 * Real.pi)) + 1) * 0.12)
    ∧ (bars .processing d1 p).length = 9 := by
  have hp : ∀ d : ℝ, bars .processing d p = barsProcessing p := by
    intro d; simp [bars]
  have hc : ∀ d : ℝ, bars .cancelling d p = barsProcessing p := by
    intro d; simp [bars]
  have hmap : barsProcessing p
      = (List.range 9).map (fun i : ℕ =>
          0.2 + (Real.sin (p + (i : ℝ) / 9 * (1.5 * Real.pi)) + 1) * 0.12) := by
    simp only [barsProcessing, BAR_COUNT, Nat.cast_ofNat]
    refine List.map_congr_left fun i _ => ?_
    have harg : p + (i : ℝ) / 9 * Real.pi * 1.5
        = p + (i : ℝ) / 9 * (1.5 * Real.pi) := by ring
    rw [harg]
  refine ⟨?_, ?_, ?_, ?_, ?_⟩
  · rw [hp d1, hp d2]
  · rw [hc d1, hc d2]
  · rw [hp d1, hmap]
  · rw [hc d1, hmap]
  · rw [hp d1, hmap]; simp

/-!
Effect lifecycles.  React runs an effect's body after a render and its
cleanup before the next run (and at unmount); an effect whose dependency
array is unchanged between renders is skipped.  We embed the dependency
comparison and the two effects' behaviour under it.
-/

/-- React's dependency comparison: an effect re-runs after a render
exactly when its dependency array changed; the re-run first invokes the
previous cleanup. -/
def depsChanged (oldDeps newDeps : List ℚ) : Bool :=
  oldDeps != newDeps

/-- The dependency array of the animation-loop effect (line 92):
`[targetLevel]`. -/
def animationEffectDeps (targetLevel : ℚ) : List ℚ :=
  [targetLevel]

/-- Number of cancel-and-restart cycles of the animation loop over a
sequence of renders with the given successive `targetLevel` values: each
dependency change runs the cleanup (`cancelAnimationFrame`, line 91) and
re-runs the effect (`requestAnimationFrame`, line 90). -/
def animationRestarts : List ℚ → ℕ
  | t1 :: t2 :: rest =>
      (if depsChanged (animationEffectDeps t1) (animationEffectDeps t2) then 1 else 0)
      + animationRestarts (t2 :: rest)
  | _ => 0

/-- C9, evaluation at the failing input: the animation effect lists
`targetLevel` in its dependency array, so a target change from 0 to 1/2
between two renders changes the array and React cancels and restarts the
frame loop — its lifecycle does depend on `targetLevel`, contrary to the
claim that a target change never cancels or restarts the repeating frame
task. -/
theorem animation_loop_restart_eval :
    depsChanged (animationEffectDeps 0) (animationEffectDeps (1/2)) = true
    ∧ animationRestarts [0, 1/2] = 1
    ∧ depsChanged (animationEffectDeps 0) (animationEffectDeps 0) = false := by
  refine ⟨?_, ?_, ?_⟩ <;>
    norm_num [depsChanged, animationEffectDeps, animationRestarts, bne_iff_ne]

/-- The observable condition of the subscription effect (lines 33–81):
the `mounted` liveness flag, whether each of the two channels is
attached, and whether the combined unlisten closure has been stored in
`detachListener`. -/
structure SubscriptionState where
  mounted : Bool
  ampAttached : Bool
  stateAttached : Bool
  detachStored : Bool
deriving DecidableEq, Repr

/-- At the start of the effect body (lines 34, 70): mounted, nothing
attached, no detach closure stored. -/
def initialSubscription : SubscriptionState :=
  { mounted := true, ampAttached := false, stateAttached := false,
    detachStored := false }

/-- The two asynchronous occurrences that race in the subscription
effect: resolution of `attachListeners()` and the effect cleanup. -/
inductive SubEvent where
  | attachResolved
  | cleanup
deriving DecidableEq, Repr

/-- One occurrence, as the code handles it.  `attachResolved` (lines
36–72): both `listen` promises have resolved, so both channels are
attached, and the `.then` (line 72) stores the unlisten closure —
unconditionally, with no check of `mounted` and no immediate teardown.
`cleanup` (lines 77–80): set `mounted` to false, then call
`detachListener?.()` — which detaches both channels only if the closure
has already been stored. -/
def subStep (s : SubscriptionState) : SubEvent → SubscriptionState
  | .attachResolved =>
      { s with ampAttached := true, stateAttached := true, detachStored := true }
  | .cleanup =>
      if s.detachStored then
        { s with mounted := false, ampAttached := false, stateAttached := false }
      else
        { s with mounted := false }

/-- The subscription effect's state after a sequence of occurrences. -/
def subRun (es : List SubEvent) : SubscriptionState :=
  es.foldl subStep initialSubscription

/-- C10, evaluation at the failing input: when the effect cleanup runs
before `attachListeners()` resolves, the late-arriving attach result is
NOT torn down — both channels end up attached (dangling) even though the
widget is unmounted, contrary to the claim that both channels end up
detached.  (For contrast: in the attach-then-cleanup order the code does
detach both channels.) -/
theorem late_attach_left_dangling_eval :
    (subRun [.cleanup, .attachResolved]).ampAttached = true
    ∧ (subRun [.cleanup, .attachResolved]).stateAttached = true
    ∧ (subRun [.cleanup, .attachResolved]).mounted = false
    ∧ (subRun [.attachResolved, .cleanup]).ampAttached = false
    ∧ (subRun [.attachResolved, .cleanup]).stateAttached = false := by
  decide

end RecordingIndicator
